import Mathlib

/-!
Verification of the paging/playback state machine of the sheet-music viewer
(src/App.tsx).  The React component state is embedded as a plain structure
`AppModel`; each handler becomes a pure state-transition function, with media
side effects (play/pause requests on the rendered element) made explicit as
boolean outputs.  JavaScript numbers that may be `NaN` or `undefined`
(results of `parseInt` and out-of-range array reads) are embedded as
`Option Int`, with `none` playing the role of `NaN`/`undefined`; JavaScript
truthiness (`x || d`) becomes `jsOr`.
-/

namespace SheetMusicViewer

/-- The `appState` field of `App`: `'upload' | 'configuring' | 'viewing'`. -/
inductive AppState where
  | upload
  | configuring
  | viewing
deriving DecidableEq, Repr

/-- `MediaType` (src/App.tsx:11): `'audio' | 'video'`; the `null` case is
represented by wrapping in `Option`. -/
inductive MediaType where
  | audio
  | video
deriving DecidableEq, Repr

/-- A JavaScript number that may be `NaN` or `undefined`: `none` models
`NaN`/`undefined`, `some v` an ordinary integer value. -/
abbrev JSNum := Option Int

/-- JavaScript `x || d` on numbers: returns `d` exactly when `x` is falsy,
i.e. `NaN`, `undefined` or `0`. -/
def jsOr (x d : JSNum) : JSNum :=
  match x with
  | none => d
  | some v => if v = 0 then d else some v

/-- JavaScript `Math.max(1, x)`: `NaN` absorbs (`Math.max(1, NaN) = NaN`),
otherwise the integer maximum. -/
def jsMax1 (x : JSNum) : JSNum := x.map (fun v => max 1 v)

/-- JavaScript array read `xs[i]` on an interval table: a negative or
out-of-range index gives `undefined`, modelled as `none`. -/
def listGetJS (xs : List JSNum) (i : Int) : JSNum :=
  if 0 ≤ i then xs.getD i.toNat none else none

/-- The component state of `App` (src/App.tsx:14-23): the `useState` hooks
that the paging/playback state machine reads and writes.  `mediaSrc` and
`mediaFile` are opaque handles (object URL, file name).  The rendered media
element `mediaRef.current` is attached exactly when `mediaType` is set, which
is how the `if (mediaRef.current)` guards are modelled.  The transient
`isLoading`/`loadingMessage` hooks are pure UI and are not part of the
machine. -/
structure AppModel where
  sheetPages : List String
  mediaSrc : Option String
  mediaFile : Option String
  mediaType : Option MediaType
  currentLeftIndex : Int
  isPlaying : Bool
  appState : AppState
  pageIntervals : List JSNum
deriving DecidableEq, Repr

/-- The startup state: every hook at its initial value. -/
def initialState : AppModel :=
  { sheetPages := []
    mediaSrc := none
    mediaFile := none
    mediaType := none
    currentLeftIndex := -1
    isPlaying := false
    appState := AppState.upload
    pageIntervals := [] }

/-- `handleBackToUpload(silent)` (src/App.tsx:238-260): revokes and clears all
session state; only a non-silent call returns `appState` to `'upload'`. -/
def handleBackToUpload (silent : Bool) (s : AppModel) : AppModel :=
  { s with
    sheetPages := []
    pageIntervals := []
    mediaSrc := none
    mediaFile := none
    mediaType := none
    currentLeftIndex := -1
    isPlaying := false
    appState := if silent then s.appState else AppState.upload }

/-- The parsed `settings.json` manifest of an exported package
(src/App.tsx:73-77): `none` fields model absent JSON properties. -/
structure ZipSettings where
  intervals : Option (List JSNum)
  audioFilename : Option String
  videoFilename : Option String
deriving DecidableEq, Repr

/-- `settings.intervals || []` in `processZip` (src/App.tsx:74): an absent
`intervals` property yields the empty list (a present array is always truthy
in JavaScript, even when empty). -/
def processZipIntervals (settings : ZipSettings) : List JSNum :=
  settings.intervals.getD []

/-- The record returned by `processZip` (src/App.tsx:67-109): the page object
URLs, the manifest's interval list (via `processZipIntervals`), and the
optional media resource. -/
structure ZipResult where
  pages : List String
  intervals : List JSNum
  mediaSrc : Option String
  mediaFile : Option String
  mediaType : Option MediaType
deriving DecidableEq, Repr

/-- The successful ZIP branch of `handleFileUpload` (src/App.tsx:115,120-132):
reset via `handleBackToUpload(true)`, then adopt the package's pages and
intervals verbatim, adopt media only when both source and file are present,
and enter viewing at the cover, paused. -/
def loadZip (s : AppModel) (r : ZipResult) : AppModel :=
  let s1 := handleBackToUpload true s
  let s2 := { s1 with sheetPages := r.pages, pageIntervals := r.intervals }
  let s3 :=
    if r.mediaSrc.isSome && r.mediaFile.isSome then
      { s2 with mediaSrc := r.mediaSrc, mediaFile := r.mediaFile, mediaType := r.mediaType }
    else s2
  { s3 with currentLeftIndex := -1, isPlaying := false, appState := AppState.viewing }

/-- The raw image/PDF branch of `handleFileUpload` (src/App.tsx:115,144-181):
reset via `handleBackToUpload(true)`, adopt the first video file (else the
first audio file) as media, adopt the produced page URLs, fill every page's
interval with the default 30 seconds, and enter configuring.
`pageUrls` is the concatenation the loop builds from images and rasterized
PDFs; the loader collaborators are external. -/
def loadRaw (s : AppModel) (pageUrls : List String)
    (firstVideoFile firstAudioFile : Option String) : AppModel :=
  let s1 := handleBackToUpload true s
  let s2 :=
    match firstVideoFile with
    | some v =>
      { s1 with mediaFile := some v, mediaSrc := some v, mediaType := some MediaType.video }
    | none =>
      match firstAudioFile with
      | some a =>
        { s1 with mediaFile := some a, mediaSrc := some a, mediaType := some MediaType.audio }
      | none => s1
  { s2 with
    sheetPages := pageUrls
    pageIntervals := List.replicate pageUrls.length (some 30)
    appState := AppState.configuring }

/-- `goToNextPage` (src/App.tsx:278-288): no-op on an empty session; advance
`currentLeftIndex` by 1 when `prev + 2 < totalPages`; otherwise keep the
index, stop playback. -/
def goToNextPage (s : AppModel) : AppModel :=
  let totalPages : Int := s.sheetPages.length
  if totalPages = 0 then s
  else if s.currentLeftIndex + 2 < totalPages then
    { s with currentLeftIndex := s.currentLeftIndex + 1 }
  else
    { s with isPlaying := false }

/-- Whether `goToNextPage` requests `mediaRef.current.pause()`
(src/App.tsx:285): only in the terminal branch of a non-empty session, and
only when a media element is attached. -/
def goToNextPagePausesMedia (s : AppModel) : Bool :=
  let totalPages : Int := s.sheetPages.length
  if totalPages = 0 then false
  else if s.currentLeftIndex + 2 < totalPages then false
  else s.mediaType.isSome

/-- `goToPrevPage` (src/App.tsx:290-292): `Math.max(prev - 1, -1)`; touches no
other field. -/
def goToPrevPage (s : AppModel) : AppModel :=
  { s with currentLeftIndex := max (s.currentLeftIndex - 1) (-1) }

/-- The countdown-timer effect (src/App.tsx:294-315).  The effect first clears
any previously armed timeout, so at most one countdown is ever outstanding;
the returned value is the duration in seconds of the single armed one-shot
timer (`none` = no timer armed).  The duration read is
`pageIntervals[intervalIndex] || 30`. -/
def armedCountdown (s : AppModel) : Option JSNum :=
  if s.isPlaying = true ∧ s.appState = AppState.viewing then
    let intervalIndex := s.currentLeftIndex + 1
    if intervalIndex < (s.sheetPages.length : Int) ∧
        s.currentLeftIndex + 2 < (s.sheetPages.length : Int) then
      some (jsOr (listGetJS s.pageIntervals intervalIndex) (some 30))
    else none
  else none

/-- The armed timer's callback (src/App.tsx:302-304): firing the countdown
calls `goToNextPage`. -/
def countdownFire : AppModel → AppModel := goToNextPage

/-- `togglePlayPause` (src/App.tsx:330-345), with the media side effect made
explicit: the boolean output is whether `mediaRef.current.play()` was
requested (the asynchronous failure-revert path is a separate event). -/
def togglePlayPauseRun (s : AppModel) : AppModel × Bool :=
  if 0 < s.sheetPages.length then
    let newIsPlaying := !s.isPlaying
    ({ s with isPlaying := newIsPlaying }, newIsPlaying && s.mediaType.isSome)
  else (s, false)

/-- `handleSaveConfiguration` (src/App.tsx:231-236): adopt the edited
intervals, return to the cover, stop playback, enter viewing. -/
def handleSaveConfiguration (intervals : List JSNum) (s : AppModel) : AppModel :=
  { s with
    pageIntervals := intervals
    currentLeftIndex := -1
    isPlaying := false
    appState := AppState.viewing }

/-- `clearMedia` (src/App.tsx:262-274): pause and rewind the media element,
revoke the object URL, clear the three media fields, and set
`isPlaying := false`; no other field is touched. -/
def clearMedia (s : AppModel) : AppModel :=
  { s with mediaSrc := none, mediaFile := none, mediaType := none, isPlaying := false }

/-- `renderPageNumber` (src/App.tsx:347-361), with the viewport query
`window.innerWidth < 768` passed in as `isMobile`; `none` models the `null`
return (no label shown). -/
def renderPageNumber (s : AppModel) (isMobile : Bool) : Option String :=
  if s.sheetPages.length = 0 ∨ s.appState ≠ AppState.viewing then none
  else if isMobile then
    let mobilePageIndex := s.currentLeftIndex + 1
    some ("Page " ++ toString (mobilePageIndex + 1) ++ " of " ++ toString s.sheetPages.length)
  else if s.currentLeftIndex = -1 then
    some ("Cover (Page 1 of " ++ toString s.sheetPages.length ++ ")")
  else if (s.sheetPages.length : Int) - 2 ≤ s.currentLeftIndex then
    some ("Pages " ++ toString ((s.sheetPages.length : Int) - 1) ++ "-" ++
      toString s.sheetPages.length ++ " of " ++ toString s.sheetPages.length)
  else
    some ("Pages " ++ toString (s.currentLeftIndex + 1) ++ "-" ++
      toString (s.currentLeftIndex + 2) ++ " of " ++ toString s.sheetPages.length)

/-- `handleIntervalChange` in `ConfigurationView` (src/App.tsx:615-619):
writes `Math.max(1, parseInt(value, 10)) || 1` to the edited slot; `value`
is the `parseInt` result (`none` = non-numeric input). -/
def handleIntervalChange (intervals : List JSNum) (index : Nat) (value : JSNum) : List JSNum :=
  intervals.set index (jsOr (jsMax1 value) (some 1))

/-- `handleSetAll` in `ConfigurationView` (src/App.tsx:621-624): fills one
slot per page with `Math.max(1, defaultInterval)`; note there is no `|| 1`
guard here, unlike `handleIntervalChange`. -/
def handleSetAll (pagesLength : Nat) (defaultInterval : JSNum) : List JSNum :=
  List.replicate pagesLength (jsMax1 defaultInterval)

/-- The Next button's `disabled` predicate (src/App.tsx:446):
`currentLeftIndex >= totalPages - 2`. -/
def nextButtonDisabled (leftIndex totalPages : Int) : Bool :=
  decide (totalPages - 2 ≤ leftIndex)

/-- The advance guard inside `goToNextPage` (src/App.tsx:281):
`prev + 2 < totalPages`. -/
def nextAdvanceCond (leftIndex totalPages : Int) : Bool :=
  decide (leftIndex + 2 < totalPages)

/-- Modelled from the claim's wording, for comparison with `armedCountdown`:
"its duration is `intervals[leftIndex + 1]` seconds (30 if that entry is
missing)". -/
def specCountdownDuration (intervals : List JSNum) (leftIndex : Int) : JSNum :=
  if 0 ≤ leftIndex + 1 ∧ (leftIndex + 1).toNat < intervals.length then
    intervals.getD (leftIndex + 1).toNat none
  else some 30

/-- Modelled from the amended claim's wording, for comparison with
`renderPageNumber`: the cover label is "Cover (Page 1 of N)"; the
single-page/mobile label is "Page (leftIndex+2) of N", the 1-based number of
the single shown page `pages[leftIndex+1]`; the terminal label applies once
`leftIndex ≥ N - 2`. -/
def specPageLabel (n : Nat) (leftIndex : Int) (isMobile : Bool) : Option String :=
  if n = 0 then none
  else if isMobile then
    some ("Page " ++ toString (leftIndex + 2) ++ " of " ++ toString n)
  else if leftIndex = -1 then
    some ("Cover (Page 1 of " ++ toString n ++ ")")
  else if (n : Int) - 2 ≤ leftIndex then
    some ("Pages " ++ toString ((n : Int) - 1) ++ "-" ++ toString n ++ " of " ++ toString n)
  else
    some ("Pages " ++ toString (leftIndex + 1) ++ "-" ++ toString (leftIndex + 2) ++
      " of " ++ toString n)

/-- An empty session with attached audio, in viewing mode, with
`isPlaying = true` (used to refute C2's empty-session branch). -/
def c2state : AppModel :=
  { sheetPages := []
    mediaSrc := some "m"
    mediaFile := some "m.mp3"
    mediaType := some MediaType.audio
    currentLeftIndex := -1
    isPlaying := true
    appState := AppState.viewing
    pageIntervals := [] }

/-- A two-page session sitting at its terminal spread while playing. -/
def c2terminal : AppModel :=
  { sheetPages := ["a.png", "b.png"]
    mediaSrc := none
    mediaFile := none
    mediaType := none
    currentLeftIndex := 0
    isPlaying := true
    appState := AppState.viewing
    pageIntervals := [some 5, some 5] }

/-- A four-page viewing session at the cover spread. -/
def c4state : AppModel :=
  { sheetPages := ["a.png", "b.png", "c.png", "d.png"]
    mediaSrc := none
    mediaFile := none
    mediaType := none
    currentLeftIndex := -1
    isPlaying := false
    appState := AppState.viewing
    pageIntervals := [some 30, some 30, some 30, some 30] }

/-- A four-page playing session with 5-second intervals at `leftIndex = 0`. -/
def c5state : AppModel :=
  { sheetPages := ["a.png", "b.png", "c.png", "d.png"]
    mediaSrc := none
    mediaFile := none
    mediaType := none
    currentLeftIndex := 0
    isPlaying := true
    appState := AppState.viewing
    pageIntervals := [some 5, some 5, some 5, some 5] }

/-- `jsOr` keeps a truthy (non-zero) number. -/
theorem jsOr_some_of_ne_zero (k : Int) (d : JSNum) (hk : k ≠ 0) :
    jsOr (some k) d = some k := by
  simp [jsOr, hk]

/-- C1 counterexample: loading a ZIP package holding one page whose manifest
omits `intervals` (`settings.intervals || []` gives `[]`) leaves
`pageIntervals = []` against one page: the lengths differ and no default-30
fill happens. -/
theorem c1_zip_load_counterexample :
    processZipIntervals
        { intervals := none, audioFilename := none, videoFilename := none } = [] ∧
    (loadZip initialState
        { pages := ["page_001.jpeg"], intervals := [], mediaSrc := none,
          mediaFile := none, mediaType := none }).sheetPages.length = 1 ∧
    (loadZip initialState
        { pages := ["page_001.jpeg"], intervals := [], mediaSrc := none,
          mediaFile := none, mediaType := none }).pageIntervals = [] ∧
    (loadZip initialState
        { pages := ["page_001.jpeg"], intervals := [], mediaSrc := none,
          mediaFile := none, mediaType := none }).pageIntervals.length ≠
      (loadZip initialState
        { pages := ["page_001.jpeg"], intervals := [], mediaSrc := none,
          mediaFile := none, mediaType := none }).sheetPages.length := by
  decide

/-- C1 (amended): a raw image/PDF load always fills every page's interval
with the default 30 seconds, so the intervals and pages have equal length;
a ZIP load instead adopts the manifest's interval list verbatim — the empty
list when the manifest omits it — with no length reconciliation against the
loaded pages. -/
theorem c1_load_intervals (s : AppModel) (pageUrls : List String)
    (firstVideoFile firstAudioFile : Option String) (r : ZipResult)
    (st : ZipSettings) (hst : st.intervals = none) :
    (loadRaw s pageUrls firstVideoFile firstAudioFile).pageIntervals =
      List.replicate pageUrls.length (some 30) ∧
    (loadRaw s pageUrls firstVideoFile firstAudioFile).pageIntervals.length =
      (loadRaw s pageUrls firstVideoFile firstAudioFile).sheetPages.length ∧
    (loadZip s r).pageIntervals = r.intervals ∧
    (loadZip s r).sheetPages = r.pages ∧
    processZipIntervals st = [] := by
  refine ⟨rfl, ?_, ?_, ?_, ?_⟩
  · show (List.replicate pageUrls.length (some 30 : JSNum)).length = pageUrls.length
    simp
  · simp only [loadZip]
    split <;> rfl
  · simp only [loadZip]
    split <;> rfl
  · simp [processZipIntervals, hst]

/-- Witness for C1's amended theorem at concrete loads. -/
theorem c1_load_intervals_witness :
    (loadRaw initialState ["a.png", "b.png"] none none).pageIntervals =
      List.replicate (["a.png", "b.png"] : List String).length (some 30) ∧
    (loadRaw initialState ["a.png", "b.png"] none none).pageIntervals.length =
      (loadRaw initialState ["a.png", "b.png"] none none).sheetPages.length ∧
    (loadZip initialState
        { pages := ["p.jpeg"], intervals := [some 5], mediaSrc := none,
          mediaFile := none, mediaType := none }).pageIntervals = [some 5] ∧
    (loadZip initialState
        { pages := ["p.jpeg"], intervals := [some 5], mediaSrc := none,
          mediaFile := none, mediaType := none }).sheetPages = ["p.jpeg"] ∧
    processZipIntervals
        { intervals := none, audioFilename := none, videoFilename := none } = [] :=
  c1_load_intervals initialState ["a.png", "b.png"] none none
    { pages := ["p.jpeg"], intervals := [some 5], mediaSrc := none,
      mediaFile := none, mediaType := none }
    { intervals := none, audioFilename := none, videoFilename := none } rfl

/-- C2 counterexample: on the empty session, `leftIndex + 2 ≥ pages.length`
holds, yet `goToNextPage` early-returns: it neither forces `playing = false`
nor requests a pause of the attached media, contradicting the claim's
"otherwise (the terminal spread, including the empty session)" branch. -/
theorem c2_next_empty_counterexample :
    c2state.currentLeftIndex + 2 ≥ (c2state.sheetPages.length : Int) ∧
    c2state.mediaType.isSome = true ∧
    c2state.isPlaying = true ∧
    (goToNextPage c2state).isPlaying = true ∧
    (goToNextPage c2state).currentLeftIndex = c2state.currentLeftIndex ∧
    goToNextPagePausesMedia c2state = false := by
  decide

/-- C2 (amended): `goToNextPage` is a complete no-op on the empty session (in
particular it does not force `playing := false` or pause media there); on a
non-empty session it advances `leftIndex` by exactly 1 iff
`leftIndex + 2 < pages.length`, and otherwise (the terminal spread) it leaves
`leftIndex` unchanged, forces `playing := false`, requests a pause of the
attached media element, and is idempotent, so repeated calls at the terminal
spread never change `leftIndex` and always force `playing = false`. -/
theorem c2_goToNextPage_spec (s : AppModel) :
    (s.sheetPages = [] → goToNextPage s = s ∧ goToNextPagePausesMedia s = false) ∧
    (s.sheetPages ≠ [] → s.currentLeftIndex + 2 < (s.sheetPages.length : Int) →
      goToNextPage s = { s with currentLeftIndex := s.currentLeftIndex + 1 } ∧
      goToNextPagePausesMedia s = false) ∧
    (s.sheetPages ≠ [] → ¬ s.currentLeftIndex + 2 < (s.sheetPages.length : Int) →
      goToNextPage s = { s with isPlaying := false } ∧
      (goToNextPage s).currentLeftIndex = s.currentLeftIndex ∧
      (goToNextPage s).isPlaying = false ∧
      goToNextPagePausesMedia s = s.mediaType.isSome ∧
      goToNextPage (goToNextPage s) = goToNextPage s) := by
  refine ⟨?_, ?_, ?_⟩
  · intro h
    simp [goToNextPage, goToNextPagePausesMedia, h]
  · intro h hlt
    have h0 : ¬((s.sheetPages.length : Int) = 0) := by
      simpa [Int.natCast_eq_zero, List.length_eq_zero] using h
    simp [goToNextPage, goToNextPagePausesMedia, h0, hlt]
  · intro h hlt
    have h0 : ¬((s.sheetPages.length : Int) = 0) := by
      simpa [Int.natCast_eq_zero, List.length_eq_zero] using h
    simp [goToNextPage, goToNextPagePausesMedia, h0, hlt]

/-- Witness for C2's amended theorem at a concrete terminal spread. -/
theorem c2_goToNextPage_spec_witness :
    goToNextPage c2terminal = { c2terminal with isPlaying := false } ∧
    (goToNextPage c2terminal).currentLeftIndex = c2terminal.currentLeftIndex ∧
    (goToNextPage c2terminal).isPlaying = false ∧
    goToNextPagePausesMedia c2terminal = c2terminal.mediaType.isSome ∧
    goToNextPage (goToNextPage c2terminal) = goToNextPage c2terminal :=
  (c2_goToNextPage_spec c2terminal).2.2 (by decide) (by decide)

/-- C3 counterexample: broadcasting a non-numeric value (`parseInt` gives
`NaN`, modelled as `none`) fills every page's interval with `NaN`, not with
the minimum value 1: `handleSetAll` lacks the `|| 1` guard of the per-page
edit. -/
theorem c3_setAll_nan_counterexample :
    handleSetAll 2 none = [none, none] ∧ (none : JSNum) ≠ some 1 := by
  decide

/-- C3 (amended): the per-page edit `handleIntervalChange` coerces any
non-positive or non-numeric value to exactly 1 second; the broadcast edit
`handleSetAll` clamps numeric values to at least 1 — in particular
broadcasting 0 yields 1 for every page — but a non-numeric broadcast value
propagates as `NaN` (`none`) to every page instead of 1. -/
theorem c3_interval_clamping (intervals : List JSNum) (i : Nat) (v : Int)
    (n : Nat) (d : Int) (hv : v ≤ 0) :
    handleIntervalChange intervals i (some v) = intervals.set i (some 1) ∧
    handleIntervalChange intervals i none = intervals.set i (some 1) ∧
    handleSetAll n (some d) = List.replicate n (some (max 1 d)) ∧
    handleSetAll n (some 0) = List.replicate n (some 1) ∧
    handleSetAll n none = List.replicate n none := by
  have hmax : max 1 v = 1 := max_eq_left (by omega)
  refine ⟨?_, ?_, rfl, ?_, rfl⟩
  · simp [handleIntervalChange, jsMax1, jsOr, hmax]
  · simp [handleIntervalChange, jsMax1, jsOr]
  · show List.replicate n (jsMax1 (some 0)) = List.replicate n (some 1)
    norm_num [jsMax1]

/-- Witness for C3's amended theorem at concrete edits. -/
theorem c3_interval_clamping_witness :
    handleIntervalChange [some 30, some 30] 0 (some (-3)) =
      ([some 30, some 30] : List JSNum).set 0 (some 1) ∧
    handleIntervalChange [some 30, some 30] 0 none =
      ([some 30, some 30] : List JSNum).set 0 (some 1) ∧
    handleSetAll 2 (some 5) = List.replicate 2 (some (max 1 5)) ∧
    handleSetAll 2 (some 0) = List.replicate 2 (some 1) ∧
    handleSetAll 2 none = List.replicate 2 none :=
  c3_interval_clamping [some 30, some 30] 0 (-3) 2 5 (by decide)

/-- C4 counterexample: at the cover of a 4-page viewing session the label is
"Cover (Page 1 of 4)", not the claimed "Cover (1 of 4)"; and in single-page
mode at `leftIndex = 0` the label is "Page 2 of 4", not the claimed
"Page 1 of 4" (the claim equates the displayed number with `leftIndex + 1`,
the code prints `leftIndex + 2`). -/
theorem c4_label_counterexample :
    renderPageNumber c4state false = some "Cover (Page 1 of 4)" ∧
    some "Cover (Page 1 of 4)" ≠ some "Cover (1 of 4)" ∧
    renderPageNumber { c4state with currentLeftIndex := 0 } true = some "Page 2 of 4" ∧
    some "Page 2 of 4" ≠ some "Page 1 of 4" := by
  refine ⟨by decide, by decide, by decide, by decide⟩

/-- C4 (amended): in viewing mode the label follows `specPageLabel`: absent
for an empty session; "Page (leftIndex+2) of N" in single-page mode (the
1-based number of the shown page `pages[leftIndex+1]`);
"Cover (Page 1 of N)" at the cover; "Pages (N-1)-N of N" once
`leftIndex ≥ N - 2`; otherwise "Pages (leftIndex+1)-(leftIndex+2) of N". -/
theorem c4_renderPageNumber_spec (s : AppModel) (m : Bool)
    (hview : s.appState = AppState.viewing) :
    renderPageNumber s m = specPageLabel s.sheetPages.length s.currentLeftIndex m := by
  have h2 : s.currentLeftIndex + 1 + 1 = s.currentLeftIndex + 2 := by omega
  simp only [renderPageNumber, specPageLabel, hview, ne_eq, not_true_eq_false, or_false, h2]

/-- Witness for C4's amended theorem at a concrete cover state. -/
theorem c4_renderPageNumber_spec_witness :
    renderPageNumber c4state false =
      specPageLabel c4state.sheetPages.length c4state.currentLeftIndex false :=
  c4_renderPageNumber_spec c4state false rfl

/-- C5: with a valid interval table (every entry a positive integer, the data
model's invariant), whenever playback is active in viewing mode and the
current spread is not terminal, the single armed one-shot countdown has
duration `intervals[leftIndex + 1]` (30 if that entry is missing) and the
timer fires `goToNextPage`; whenever playback is inactive, the state is not
viewing, or the spread is terminal, no countdown is armed. -/
theorem c5_countdown (s : AppModel)
    (hval : ∀ x ∈ s.pageIntervals, ∃ k : Int, x = some k ∧ 1 ≤ k) :
    (s.isPlaying = true → s.appState = AppState.viewing →
      s.currentLeftIndex + 2 < (s.sheetPages.length : Int) →
      armedCountdown s = some (specCountdownDuration s.pageIntervals s.currentLeftIndex)) ∧
    (s.isPlaying = false → armedCountdown s = none) ∧
    (s.appState ≠ AppState.viewing → armedCountdown s = none) ∧
    (¬ s.currentLeftIndex + 2 < (s.sheetPages.length : Int) → armedCountdown s = none) ∧
    countdownFire = goToNextPage := by
  refine ⟨?_, ?_, ?_, ?_, rfl⟩
  · intro hp hv hlt
    have h1 : s.currentLeftIndex + 1 < (s.sheetPages.length : Int) := by omega
    show (if s.isPlaying = true ∧ s.appState = AppState.viewing then _ else _) = _
    rw [if_pos ⟨hp, hv⟩, if_pos ⟨h1, hlt⟩]
    unfold specCountdownDuration listGetJS
    by_cases hb : 0 ≤ s.currentLeftIndex + 1 ∧
        (s.currentLeftIndex + 1).toNat < s.pageIntervals.length
    · rw [if_pos hb, if_pos hb.1]
      have hx : s.pageIntervals.getD (s.currentLeftIndex + 1).toNat none =
          s.pageIntervals[(s.currentLeftIndex + 1).toNat] := by
        rw [List.getD_eq_getElem?_getD, List.getElem?_eq_getElem hb.2]
        rfl
      have hmem : s.pageIntervals.getD (s.currentLeftIndex + 1).toNat none ∈
          s.pageIntervals := by
        rw [hx]
        exact List.getElem_mem hb.2
      obtain ⟨k, hk, hk1⟩ := hval _ hmem
      rw [hk, jsOr_some_of_ne_zero k (some 30) (by omega)]
    · rw [if_neg hb]
      rcases Decidable.em (0 ≤ s.currentLeftIndex + 1) with hge | hge
      · have hlen : s.pageIntervals.length ≤ (s.currentLeftIndex + 1).toNat := by
          by_contra hc
          exact hb ⟨hge, by omega⟩
        rw [if_pos hge, List.getD_eq_getElem?_getD, List.getElem?_eq_none hlen]
        rfl
      · rw [if_neg hge]
        rfl
  · intro hp
    simp [armedCountdown, hp]
  · intro hv
    simp [armedCountdown, hv]
  · intro hnt
    simp [armedCountdown, hnt]

/-- Witness for C5 at a concrete playing state with 5-second intervals. -/
theorem c5_countdown_witness :
    armedCountdown c5state =
      some (specCountdownDuration c5state.pageIntervals c5state.currentLeftIndex) := by
  have hval : ∀ x ∈ c5state.pageIntervals, ∃ k : Int, x = some k ∧ 1 ≤ k := by
    intro x hx
    have hx5 : x = some 5 := by
      simpa [c5state] using hx
    exact ⟨5, hx5, by norm_num⟩
  exact (c5_countdown c5state hval).1 rfl rfl (by decide)

/-- C6: `goToPrevPage` sets `leftIndex` to `max (leftIndex - 1) (-1)`, never
goes below `-1`, is a complete no-op at `leftIndex = -1`, and never changes
`isPlaying`. -/
theorem c6_goToPrevPage (s : AppModel) :
    (goToPrevPage s).currentLeftIndex = max (s.currentLeftIndex - 1) (-1) ∧
    -1 ≤ (goToPrevPage s).currentLeftIndex ∧
    (s.currentLeftIndex = -1 → goToPrevPage s = s) ∧
    (goToPrevPage s).isPlaying = s.isPlaying := by
  refine ⟨rfl, le_max_right _ _, ?_, rfl⟩
  intro h
  have hmax : max (s.currentLeftIndex - 1) (-1) = s.currentLeftIndex := by
    rw [h]
    decide
  show { s with currentLeftIndex := max (s.currentLeftIndex - 1) (-1) } = s
  rw [hmax]

/-- Witness for C6 at a concrete cover-position state. -/
theorem c6_goToPrevPage_witness :
    goToPrevPage initialState = initialState :=
  (c6_goToPrevPage initialState).2.2.1 rfl

/-- C7: saving a new configuration replaces the session's intervals, returns
to the cover (`leftIndex = -1`), stops playback, and leaves the pages and the
media slot unchanged. -/
theorem c7_handleSaveConfiguration (ivs : List JSNum) (s : AppModel) :
    (handleSaveConfiguration ivs s).pageIntervals = ivs ∧
    (handleSaveConfiguration ivs s).currentLeftIndex = -1 ∧
    (handleSaveConfiguration ivs s).isPlaying = false ∧
    (handleSaveConfiguration ivs s).sheetPages = s.sheetPages ∧
    (handleSaveConfiguration ivs s).mediaSrc = s.mediaSrc ∧
    (handleSaveConfiguration ivs s).mediaFile = s.mediaFile ∧
    (handleSaveConfiguration ivs s).mediaType = s.mediaType :=
  ⟨rfl, rfl, rfl, rfl, rfl, rfl, rfl⟩

/-- C8: on an empty session, `togglePlayPause` is a complete no-op (no state
change, no media start request), `playing` remains `false` when it was
`false`, and the page-range label is absent in both layouts. -/
theorem c8_play_empty_noop (s : AppModel) (h : s.sheetPages = []) :
    togglePlayPauseRun s = (s, false) ∧
    (s.isPlaying = false → (togglePlayPauseRun s).1.isPlaying = false) ∧
    (∀ m : Bool, renderPageNumber s m = none) := by
  have h0 : ¬(0 < s.sheetPages.length) := by simp [h]
  refine ⟨?_, ?_, ?_⟩
  · simp [togglePlayPauseRun, h0]
  · intro hp
    simp [togglePlayPauseRun, h0, hp]
  · intro m
    simp [renderPageNumber, h]

/-- Witness for C8 at the startup state. -/
theorem c8_play_empty_noop_witness :
    togglePlayPauseRun initialState = (initialState, false) ∧
    (togglePlayPauseRun initialState).1.isPlaying = false ∧
    renderPageNumber initialState false = none := by
  have h := c8_play_empty_noop initialState rfl
  exact ⟨h.1, h.2.1 rfl, h.2.2 false⟩

/-- C9: for `leftIndex ≥ -1` and `totalPages ≥ 0`, the Next button's
`disabled` predicate is the boolean negation of the advance guard inside
`goToNextPage`, and on any state with `leftIndex ≥ -1` the button is disabled
exactly when `goToNextPage` leaves `leftIndex` unchanged. -/
theorem c9_next_disabled_iff_not_advance (leftIndex totalPages : Int) (s : AppModel)
    (h1 : -1 ≤ leftIndex) (h2 : 0 ≤ totalPages) (hs : -1 ≤ s.currentLeftIndex) :
    nextButtonDisabled leftIndex totalPages = !nextAdvanceCond leftIndex totalPages ∧
    (nextButtonDisabled s.currentLeftIndex (s.sheetPages.length : Int) = true ↔
      (goToNextPage s).currentLeftIndex = s.currentLeftIndex) := by
  constructor
  · simp only [nextButtonDisabled, nextAdvanceCond, ← decide_not]
    exact decide_eq_decide.mpr (by omega)
  · by_cases h0 : (s.sheetPages.length : Int) = 0
    · simp only [nextButtonDisabled, goToNextPage, h0, if_pos]
      simp
      omega
    · by_cases hadv : s.currentLeftIndex + 2 < (s.sheetPages.length : Int)
      · simp only [nextButtonDisabled, goToNextPage]
        rw [if_neg h0, if_pos hadv]
        simp
        omega
      · simp only [nextButtonDisabled, goToNextPage]
        rw [if_neg h0, if_neg hadv]
        simp
        omega

/-- Witness for C9 at a concrete mid-score index and a concrete terminal
state. -/
theorem c9_next_disabled_iff_not_advance_witness :
    nextButtonDisabled 0 4 = !nextAdvanceCond 0 4 ∧
    (nextButtonDisabled c2terminal.currentLeftIndex
        (c2terminal.sheetPages.length : Int) = true ↔
      (goToNextPage c2terminal).currentLeftIndex = c2terminal.currentLeftIndex) :=
  c9_next_disabled_iff_not_advance 0 4 c2terminal (by decide) (by decide) (by decide)

/-- C10: `clearMedia` unconditionally sets `isPlaying := false` and clears the
media slot, leaving pages, intervals, the current index and the app state
unchanged. -/
theorem c10_clearMedia (s : AppModel) :
    (clearMedia s).isPlaying = false ∧
    (clearMedia s).mediaSrc = none ∧
    (clearMedia s).mediaFile = none ∧
    (clearMedia s).mediaType = none ∧
    (clearMedia s).sheetPages = s.sheetPages ∧
    (clearMedia s).pageIntervals = s.pageIntervals ∧
    (clearMedia s).currentLeftIndex = s.currentLeftIndex ∧
    (clearMedia s).appState = s.appState :=
  ⟨rfl, rfl, rfl, rfl, rfl, rfl, rfl, rfl⟩

end SheetMusicViewer
